import Mathlib

/-!
Shallow embedding of the steamid-rs crate (src/lib/mod.rs, steam_id.rs,
account_type.rs, chat_type.rs, instance.rs, universe.rs, errors.rs).

Machine integers (u64/u32/u8) are modelled as `Nat` with explicit
`% 2^64` where Rust shifting can overflow; `&&&`, `|||`, `^^^`, `<<<`,
`>>>` mirror the Rust bitwise operators; `!m` on u64 is `m ^^^ (2^64-1)`.
Strings handled by the parser are modelled as `List Char`; the Rust code
is byte-oriented but every grammar it accepts is ASCII, where byte and
character indexing coincide (quantified parsing theorems carry an ASCII
hypothesis where that matters).
-/

set_option maxRecDepth 16384

namespace steamid

/- The bit masks from src/lib/mod.rs (`mod mask`), copied verbatim. -/
namespace mask

def AUTH_SERVER : Nat :=
  0b0000000000000000000000000000000000000000000000000000000000000001

def ACCOUNT_NUMBER : Nat :=
  0b0000000000000000000000000000000011111111111111111111111111111110

def INSTANCE : Nat :=
  0b0000000000001111111111111111111100000000000000000000000000000000

def ACCOUNT_TYPE : Nat :=
  0b0000000011110000000000000000000000000000000000000000000000000000

def UNIVERSE : Nat :=
  0b1111111100000000000000000000000000000000000000000000000000000000

def CHAT_TYPE : Nat :=
  0b0000000000001111111100000000000000000000000000000000000000000000

end mask

/- The shift amounts from src/lib/mod.rs (`mod shift`): the
trailing-zero count of the corresponding mask. -/
namespace shift

def AUTH_SERVER : Nat := 0

def ACCOUNT_NUMBER : Nat := 1

def INSTANCE : Nat := 32

def ACCOUNT_TYPE : Nat := 52

def UNIVERSE : Nat := 56

def CHAT_TYPE : Nat := 44

end shift

/-- Model of u64 `!m` (bitwise not within 64 bits). -/
def not64 (m : Nat) : Nat := m ^^^ (2 ^ 64 - 1)

/-- Model of `replace_bits` from src/lib/steam_id.rs: replaces the bits in `val`
selected by `mask` with those of `new`, leaving the other bits alone. -/
def replace_bits (val msk new : Nat) : Nat :=
  (val &&& not64 msk) ||| (new &&& msk)

/-- Model of `ChatType` from src/lib/chat_type.rs. -/
inductive ChatType where
  | None
  | MatchMakingLobby
  | Lobby
  | ClanChat
deriving DecidableEq

/-- Rust `impl From<ChatType> for u8`. -/
def ChatType.toU8 : ChatType → Nat
  | .None => 0
  | .MatchMakingLobby => 1
  | .Lobby => 2
  | .ClanChat => 4

/-- Rust `impl From<u8> for ChatType` (lossy: default on unknown). -/
def ChatType.ofU8 : Nat → ChatType
  | 1 => .MatchMakingLobby
  | 2 => .Lobby
  | 4 => .ClanChat
  | _ => .None

/-- Model of `Universe` from src/lib/universe.rs. -/
inductive Universe where
  | Unspecified
  | Public
  | Beta
  | Internal
  | Dev
  | RC
deriving DecidableEq

/-- Rust `impl From<Universe> for u8`. -/
def Universe.toU8 : Universe → Nat
  | .Unspecified => 0
  | .Public => 1
  | .Beta => 2
  | .Internal => 3
  | .Dev => 4
  | .RC => 5

/-- Rust `impl From<u8> for Universe` (out-of-range decodes to Unspecified). -/
def Universe.ofU8 : Nat → Universe
  | 1 => .Public
  | 2 => .Beta
  | 3 => .Internal
  | 4 => .Dev
  | 5 => .RC
  | _ => .Unspecified

/-- Model of `AccountType` from src/lib/account_type.rs. -/
inductive AccountType where
  | Invalid
  | Individual
  | Multiseat
  | GameServer
  | AnonGameServer
  | Pending
  | ContentServer
  | Clan
  | Chat (v : ChatType)
  | ConsoleUser
  | AnonUser
deriving DecidableEq

/-- Rust `impl From<AccountType> for u8`. -/
def AccountType.toU8 : AccountType → Nat
  | .Invalid => 0
  | .Individual => 1
  | .Multiseat => 2
  | .GameServer => 3
  | .AnonGameServer => 4
  | .Pending => 5
  | .ContentServer => 6
  | .Clan => 7
  | .Chat _ => 8
  | .ConsoleUser => 9
  | .AnonUser => 10

/-- Rust `impl From<u8> for AccountType` (unknown values map to Invalid). -/
def AccountType.ofU8 : Nat → AccountType
  | 0 => .Invalid
  | 1 => .Individual
  | 2 => .Multiseat
  | 3 => .GameServer
  | 4 => .AnonGameServer
  | 5 => .Pending
  | 6 => .ContentServer
  | 7 => .Clan
  | 8 => .Chat .ClanChat
  | 9 => .ConsoleUser
  | 10 => .AnonUser
  | _ => .Invalid

/-- Rust `impl From<char> for AccountType` (unknown characters map to Invalid). -/
def AccountType.ofChar : Char → AccountType
  | 'I' => .Invalid
  | 'U' => .Individual
  | 'M' => .Multiseat
  | 'G' => .GameServer
  | 'A' => .AnonGameServer
  | 'P' => .Pending
  | 'C' => .ContentServer
  | 'g' => .Clan
  | 'L' => .Chat .Lobby
  | 'T' => .Chat .MatchMakingLobby
  | 'c' => .Chat .ClanChat
  | 'a' => .AnonUser
  | _ => .Invalid

/-- Rust `impl From<AccountType> for char`. -/
def AccountType.toChar : AccountType → Char
  | .Invalid => 'I'
  | .Individual => 'U'
  | .Multiseat => 'M'
  | .GameServer => 'G'
  | .AnonGameServer => 'A'
  | .Pending => 'P'
  | .ContentServer => 'C'
  | .Clan => 'g'
  | .Chat .MatchMakingLobby => 'T'
  | .Chat .Lobby => 'L'
  | .Chat .ClanChat => 'c'
  | .Chat .None => 'c'
  | .ConsoleUser => 'I'
  | .AnonUser => 'a'

/-- Model of `Instance` from src/lib/instance.rs. -/
inductive Instance where
  | None (v : ChatType)
  | Desktop (v : ChatType)
  | Console (v : ChatType)
  | Web (v : ChatType)
deriving DecidableEq

/-- Rust `impl From<Instance> for u32`. -/
def Instance.toU32 : Instance → Nat
  | .None v => 0 ||| (ChatType.toU8 v <<< (shift.CHAT_TYPE - shift.INSTANCE))
  | .Desktop v => 1 ||| (ChatType.toU8 v <<< (shift.CHAT_TYPE - shift.INSTANCE))
  | .Console v => 2 ||| (ChatType.toU8 v <<< (shift.CHAT_TYPE - shift.INSTANCE))
  | .Web v => 4 ||| (ChatType.toU8 v <<< (shift.CHAT_TYPE - shift.INSTANCE))

/-- Rust `impl From<u32> for Instance`: decomposes a packed instance value
into the instance discriminant and embedded chat type (lossy). -/
def Instance.ofU32 (v : Nat) : Instance :=
  let masked : Nat := (v <<< shift.INSTANCE) &&& mask.INSTANCE
  let chat_type : ChatType := ChatType.ofU8 ((masked &&& mask.CHAT_TYPE) >>> shift.CHAT_TYPE)
  let masked_chat : Nat := (masked &&& not64 mask.CHAT_TYPE) >>> shift.INSTANCE
  match masked_chat with
  | 0 => .None chat_type
  | 1 => .Desktop chat_type
  | 2 => .Console chat_type
  | 4 => .Web chat_type
  | _ => .Desktop chat_type

/-- Model of `SteamIdBuilder` from src/lib/steam_id.rs: a u64 under construction. -/
structure SteamIdBuilder where
  id : Nat
deriving DecidableEq

/-- Model of `SteamId` from src/lib/steam_id.rs: the read-only packed identifier. -/
structure SteamId where
  id : Nat
deriving DecidableEq

/-- Model of `SteamIdBuilder::finish`. -/
def SteamIdBuilder.finish (b : SteamIdBuilder) : SteamId :=
  ⟨b.id⟩

/-- Model of `SteamIdBuilder::authentication_server`: values above 1 are capped to 1. -/
def SteamIdBuilder.authentication_server (b : SteamIdBuilder) (val : Nat) : SteamIdBuilder :=
  let new_val : Nat := if val ≥ 1 then 1 else 0
  ⟨replace_bits b.id mask.AUTH_SERVER (new_val <<< shift.AUTH_SERVER)⟩

/-- Model of `SteamIdBuilder::account_number`; the `% 2^64` models the u64 shift
discarding bits shifted past bit 63. -/
def SteamIdBuilder.account_number (b : SteamIdBuilder) (val : Nat) : SteamIdBuilder :=
  ⟨replace_bits b.id mask.ACCOUNT_NUMBER ((val <<< shift.ACCOUNT_NUMBER) % 2 ^ 64)⟩

/-- Model of `SteamIdBuilder::account_type_preserve_bits`. -/
def SteamIdBuilder.account_type_preserve_bits (b : SteamIdBuilder) (val : AccountType) : SteamIdBuilder :=
  ⟨replace_bits b.id mask.ACCOUNT_TYPE (AccountType.toU8 val <<< shift.ACCOUNT_TYPE)⟩

/-- Model of `SteamIdBuilder::instance` (named `instance_` because `instance` is a
Lean keyword). -/
def SteamIdBuilder.instance_ (b : SteamIdBuilder) (val : Instance) : SteamIdBuilder :=
  ⟨replace_bits b.id mask.INSTANCE (Instance.toU32 val <<< shift.INSTANCE)⟩

/-- Model of `SteamIdBuilder::universe` (named `universe_` because `universe` is a
Lean keyword). -/
def SteamIdBuilder.universe_ (b : SteamIdBuilder) (val : Universe) : SteamIdBuilder :=
  ⟨replace_bits b.id mask.UNIVERSE (Universe.toU8 val <<< shift.UNIVERSE)⟩

/-- Model of `SteamIdBuilder::account_type`: side effect on the Instance field for
every account type other than Invalid and Individual, then the plain
account-type write. -/
def SteamIdBuilder.account_type (b : SteamIdBuilder) (val : AccountType) : SteamIdBuilder :=
  let new : SteamIdBuilder :=
    match val with
    | .Invalid | .Individual => b
    | .Chat v => b.instance_ (.None v)
    | _ => b.instance_ (.None .None)
  new.account_type_preserve_bits val

/-- Model of `SteamIdBuilder::new`: Individual / Public / instance 1 defaults. -/
def SteamIdBuilder.new : SteamIdBuilder :=
  (((⟨0⟩ : SteamIdBuilder).account_type .Individual).universe_ .Public).instance_ (Instance.ofU32 1)

/-- Model of `SteamId::authentication_server`. -/
def SteamId.authentication_server (s : SteamId) : Nat :=
  s.id &&& mask.AUTH_SERVER

/-- Model of `SteamId::account_number`. -/
def SteamId.account_number (s : SteamId) : Nat :=
  (s.id &&& mask.ACCOUNT_NUMBER) >>> shift.ACCOUNT_NUMBER

/-- Rust `impl From<&SteamId> for ChatType`. -/
def ChatType.ofSteamId (s : SteamId) : ChatType :=
  ChatType.ofU8 ((s.id &&& mask.CHAT_TYPE) >>> shift.CHAT_TYPE)

/-- Rust `impl From<&SteamId> for AccountType`: reads the 4-bit field and, when
it decodes to Chat, re-reads the chat type from the Instance bits. -/
def AccountType.ofSteamId (s : SteamId) : AccountType :=
  let account_type : Nat := (s.id &&& mask.ACCOUNT_TYPE) >>> shift.ACCOUNT_TYPE
  let account_typed : AccountType := AccountType.ofU8 account_type
  match account_typed with
  | .Chat _ => .Chat (ChatType.ofSteamId s)
  | _ => account_typed

/-- Rust `impl From<&SteamId> for Instance`. -/
def Instance.ofSteamId (s : SteamId) : Instance :=
  Instance.ofU32 ((s.id &&& mask.INSTANCE) >>> shift.INSTANCE)

/-- Rust `impl From<SteamId> for Universe`. -/
def Universe.ofSteamId (s : SteamId) : Universe :=
  Universe.ofU8 ((s.id &&& mask.UNIVERSE) >>> shift.UNIVERSE)

/-- Model of `Field` from src/lib/errors.rs. -/
inductive Field where
  | AuthServer
  | AccountNumber
  | Instance
  | AccountType
  | Universe
  | SteamId64
deriving DecidableEq

/-- Model of `ParseError` from src/lib/errors.rs. -/
inductive ParseError where
  | UknownFormat
  | Invalid (f : Field)
  | TooShort
  | Empty
  | Other (msg : String)
deriving DecidableEq

/-- ASCII whitespace recognized by Rust `str::trim` (`char::is_whitespace`
restricted to ASCII: space, \t, \n, vertical tab, form feed, \r). -/
def isRustWhitespace (c : Char) : Bool :=
  c = ' ' || c = '\t' || c = '\n' || c.toNat = 11 || c.toNat = 12 || c = '\r'

/-- Model of `str::trim`: strip leading and trailing whitespace. -/
def trimList (cs : List Char) : List Char :=
  ((cs.dropWhile isRustWhitespace).reverse.dropWhile isRustWhitespace).reverse

/-- Model of `str::split(\':\')` on a character list: splitting an empty
string yields one empty field, a trailing separator yields a trailing
empty field. -/
def splitColon : List Char → List (List Char)
  | [] => [[]]
  | c :: rest =>
    if c = ':' then [] :: splitColon rest
    else
      match splitColon rest with
      | [] => [[c]]
      | h :: t => (c :: h) :: t

/-- Decimal accumulation used by Rust `from_str_radix`: fails on the
first non-digit character. -/
def digitsAux : Nat → List Char → Option Nat
  | acc, [] => some acc
  | acc, c :: cs =>
    if c.isDigit then digitsAux (acc * 10 + (c.toNat - 48)) cs else none

/-- Model of Rust `uN::from_str` for an unsigned type with exclusive
upper bound `bound`: an optional leading plus sign, then one or more
decimal digits, and the value must fit in the type. -/
def parseUnsigned (bound : Nat) (cs : List Char) : Option Nat :=
  let body : List Char := if cs.head? = some '+' then cs.tail else cs
  if body = [] then none
  else
    match digitsAux 0 body with
    | some v => if v < bound then some v else none
    | none => none

/-- Rust `u64::from_str`. -/
def parseU64 (cs : List Char) : Option Nat := parseUnsigned (2 ^ 64) cs

/-- Rust `u8::from_str`. -/
def parseU8 (cs : List Char) : Option Nat := parseUnsigned (2 ^ 8) cs

/-- Rust `char::from_str`: succeeds exactly on one-character strings. -/
def charFromStr : List Char → Option Char
  | [c] => some c
  | _ => none

/-- Model of `parse_from_steamid64` from src/lib/steam_id.rs. -/
def parse_from_steamid64 (s : List Char) : Except ParseError SteamIdBuilder :=
  match parseU64 s with
  | some v => .ok ⟨v⟩
  | none => .error (.Invalid .SteamId64)

/-- Model of `parse_from_steamid2` from src/lib/steam_id.rs: skips the first six
bytes (`STEAM_`), splits the remainder on colons, and populates a fresh
builder with universe (zero promoted to one), auth server (rejecting
values at or above two), account number (rejecting values at or above
2^31) and the fixed account type `U`; sub-parses run left to right and
the first failure is returned. -/
def parse_from_steamid2 (s : List Char) : Except ParseError SteamIdBuilder :=
  if s.length < 6 then .error .UknownFormat
  else
    match splitColon (s.drop 6) with
    | [] => .error .TooShort
    | f1 :: rest =>
      match parseU8 f1 with
      | none => .error (.Invalid .Universe)
      | some u =>
        match rest with
        | [] => .error .TooShort
        | f2 :: rest2 =>
          match parseU64 f2 with
          | none => .error (.Invalid .AuthServer)
          | some a =>
            if a < 2 then
              match rest2 with
              | [] => .error .TooShort
              | f3 :: _ =>
                match parseU64 f3 with
                | none => .error (.Invalid .AccountNumber)
                | some n =>
                  if n < 2 ^ 31 then
                    .ok ((((SteamIdBuilder.new.universe_ (Universe.ofU8 (Nat.max u 1))).authentication_server
                      a).account_number n).account_type (AccountType.ofChar 'U'))
                  else .error (.Invalid .AccountNumber)
            else .error (.Invalid .AuthServer)

/-- Model of `parse_from_steamid3` from src/lib/steam_id.rs: requires a closing
bracket, strips the surrounding brackets, takes the first three
colon-separated fields (ignoring any further ones), and populates a
fresh builder with universe, auth server (the packed value masked to its
low bit), account number (the packed value, rejected above u32::MAX,
shifted right by one) and the account type character (which must be a
single ASCII alphabetic character); sub-parses run left to right. -/
def parse_from_steamid3 (s : List Char) : Except ParseError SteamIdBuilder :=
  match s.getLast? with
  | none => .error .TooShort
  | some last =>
    if last = ']' then
      if s.length < 2 then .error .UknownFormat
      else
        match splitColon ((s.drop 1).take (s.length - 2)) with
        | [] => .error .TooShort
        | acc_type :: rest =>
          match rest with
          | [] => .error .TooShort
          | universeF :: rest2 =>
            match rest2 with
            | [] => .error .TooShort
            | auth_server :: _ =>
              match parseU8 universeF with
              | none => .error (.Invalid .Universe)
              | some uv =>
                match parseU64 auth_server with
                | none => .error (.Invalid .AuthServer)
                | some av =>
                  match parseU64 auth_server with
                  | none => .error (.Invalid .AccountNumber)
                  | some nv =>
                    if nv ≤ 4294967295 then
                      match charFromStr acc_type with
                      | none => .error (.Invalid .AccountType)
                      | some ch =>
                        if ch.isAlpha then
                          .ok ((((SteamIdBuilder.new.universe_ (Universe.ofU8 uv)).authentication_server
                            (av &&& mask.AUTH_SERVER)).account_number
                            (nv >>> shift.ACCOUNT_NUMBER)).account_type (AccountType.ofChar ch))
                        else .error (.Invalid .AccountType)
                    else .error (.Invalid .AccountNumber)
    else .error .UknownFormat

/-- Rust `impl FromStr for SteamIdBuilder`: trim, reject inputs longer than
32 bytes, dispatch on the first byte. -/
def fromStr (s : List Char) : Except ParseError SteamIdBuilder :=
  let t := trimList s
  if 32 < t.length then .error .UknownFormat
  else
    match t with
    | [] => .error .Empty
    | c :: _ =>
      if '0' ≤ c ∧ c ≤ '9' then parse_from_steamid64 t
      else if c = 'S' then parse_from_steamid2 t
      else if c = '[' then parse_from_steamid3 t
      else .error .UknownFormat

/-- The profile URL prefix constant from src/lib/steam_id.rs. -/
def PROFILE_URL : String := "http://steamcommunity.com/profiles/"

/-- The group URL prefix constant from src/lib/steam_id.rs. -/
def GROUP_URL : String := "http://steamcommunity.com/gid/"

/-- Model of `Display` of `IdFormat::SteamId64(v)`. -/
def fmtSteamId64 (v : SteamId) : String := Nat.repr v.id

/-- Model of `Display` of `IdFormat::SteamId2(v)`. -/
def fmtSteamId2 (v : SteamId) : String :=
  "STEAM_" ++ Nat.repr (Universe.toU8 (Universe.ofSteamId v)) ++ ":" ++
    Nat.repr v.authentication_server ++ ":" ++ Nat.repr v.account_number

/-- Model of `Display` of `IdFormat::SteamId2Legacy(v)`: the universe is always
rendered as a literal zero. -/
def fmtSteamId2Legacy (v : SteamId) : String :=
  "STEAM_" ++ Nat.repr 0 ++ ":" ++
    Nat.repr v.authentication_server ++ ":" ++ Nat.repr v.account_number

/-- Model of `Display` of `IdFormat::SteamId3(v)`. -/
def fmtSteamId3 (v : SteamId) : String :=
  "[" ++ (AccountType.toChar (AccountType.ofSteamId v)).toString ++ ":" ++
    Nat.repr (Universe.toU8 (Universe.ofSteamId v)) ++ ":" ++
    Nat.repr (v.id &&& (mask.AUTH_SERVER ||| mask.ACCOUNT_NUMBER)) ++ "]"

/-- Model of `Display` of `IdFormat::Url(v)`: the group URL with the SteamId3
rendering for Clan accounts, the profile URL with the raw value
otherwise. -/
def fmtUrl (v : SteamId) : String :=
  match AccountType.ofSteamId v with
  | .Clan => GROUP_URL ++ fmtSteamId3 v
  | _ => PROFILE_URL ++ Nat.repr v.id

/-! Bit-level helper lemmas about `replace_bits`. -/

theorem replace_bits_and (x m n w : Nat) :
    replace_bits x m n &&& w = (x &&& (not64 m &&& w)) ||| (n &&& (m &&& w)) := by
  apply Nat.eq_of_testBit_eq
  intro i
  simp only [replace_bits, Nat.testBit_or, Nat.testBit_and]
  cases x.testBit i <;> cases (not64 m).testBit i <;> cases n.testBit i <;>
    cases m.testBit i <;> cases w.testBit i <;> rfl

theorem replace_bits_testBit_frame (x m n k : Nat) (hx : x < 2 ^ 64)
    (hk : m.testBit k = false) : (replace_bits x m n).testBit k = x.testBit k := by
  simp only [replace_bits, not64, Nat.testBit_or, Nat.testBit_and, Nat.testBit_xor, hk,
    Nat.testBit_two_pow_sub_one]
  by_cases h : k < 64
  · simp [h]
  · have hb : x.testBit k = false := by
      refine Nat.testBit_lt_two_pow (lt_of_lt_of_le hx ?_)
      exact Nat.pow_le_pow_right (by norm_num) (le_of_not_lt h)
    simp [h, hb]

theorem replace_bits_lt (x m n : Nat) (hm : m < 2 ^ 64) : replace_bits x m n < 2 ^ 64 := by
  refine Nat.or_lt_two_pow ?_ ?_
  · exact lt_of_le_of_lt (Nat.and_le_right) (by
      have : not64 m < 2 ^ 64 := Nat.xor_lt_two_pow hm (by norm_num)
      exact this)
  · exact lt_of_le_of_lt (Nat.and_le_right) hm

/-- Claim C3: the five field masks are pairwise disjoint and jointly
cover all 64 bits, and each single-field builder write (implemented with
the replace-masked-bits-only primitive) leaves every bit outside its
field mask unchanged, for every builder state and every input value. -/
theorem c3_field_isolation :
    (mask.AUTH_SERVER &&& mask.ACCOUNT_NUMBER = 0 ∧ mask.AUTH_SERVER &&& mask.INSTANCE = 0 ∧
     mask.AUTH_SERVER &&& mask.ACCOUNT_TYPE = 0 ∧ mask.AUTH_SERVER &&& mask.UNIVERSE = 0 ∧
     mask.ACCOUNT_NUMBER &&& mask.INSTANCE = 0 ∧ mask.ACCOUNT_NUMBER &&& mask.ACCOUNT_TYPE = 0 ∧
     mask.ACCOUNT_NUMBER &&& mask.UNIVERSE = 0 ∧ mask.INSTANCE &&& mask.ACCOUNT_TYPE = 0 ∧
     mask.INSTANCE &&& mask.UNIVERSE = 0 ∧ mask.ACCOUNT_TYPE &&& mask.UNIVERSE = 0)
    ∧ (mask.AUTH_SERVER ||| mask.ACCOUNT_NUMBER ||| mask.INSTANCE ||| mask.ACCOUNT_TYPE |||
        mask.UNIVERSE = 2 ^ 64 - 1)
    ∧ (∀ (b : SteamIdBuilder) (v k : Nat), b.id < 2 ^ 64 →
        mask.AUTH_SERVER.testBit k = false →
        ((b.authentication_server v).id).testBit k = b.id.testBit k)
    ∧ (∀ (b : SteamIdBuilder) (v k : Nat), b.id < 2 ^ 64 →
        mask.ACCOUNT_NUMBER.testBit k = false →
        ((b.account_number v).id).testBit k = b.id.testBit k)
    ∧ (∀ (b : SteamIdBuilder) (v : AccountType) (k : Nat), b.id < 2 ^ 64 →
        mask.ACCOUNT_TYPE.testBit k = false →
        ((b.account_type_preserve_bits v).id).testBit k = b.id.testBit k)
    ∧ (∀ (b : SteamIdBuilder) (v : Instance) (k : Nat), b.id < 2 ^ 64 →
        mask.INSTANCE.testBit k = false →
        ((b.instance_ v).id).testBit k = b.id.testBit k)
    ∧ (∀ (b : SteamIdBuilder) (v : Universe) (k : Nat), b.id < 2 ^ 64 →
        mask.UNIVERSE.testBit k = false →
        ((b.universe_ v).id).testBit k = b.id.testBit k) := by
  refine ⟨by decide, by decide, ?_, ?_, ?_, ?_, ?_⟩ <;>
    intro b v k hb hk <;>
    simp only [SteamIdBuilder.authentication_server, SteamIdBuilder.account_number,
      SteamIdBuilder.account_type_preserve_bits, SteamIdBuilder.instance_,
      SteamIdBuilder.universe_] <;>
    exact replace_bits_testBit_frame _ _ _ _ hb hk

/-- Closed instance of `c3_field_isolation`. -/
theorem c3_field_isolation_witness :
    ((⟨76561197990953833⟩ : SteamIdBuilder).account_number 7).id.testBit 0 =
      (76561197990953833 : Nat).testBit 0 :=
  c3_field_isolation.2.2.2.1 ⟨76561197990953833⟩ 7 0 (by decide) (by decide)

theorem accnum_mask_arith (n : Nat) :
    (((n <<< 1) % 2 ^ 64) &&& mask.ACCOUNT_NUMBER) >>> 1 = n % 2 ^ 31 := by
  rw [show mask.ACCOUNT_NUMBER = (2 ^ 31 - 1) <<< 1 from by decide]
  apply Nat.eq_of_testBit_eq
  intro k
  simp only [Nat.testBit_shiftRight, Nat.testBit_and, Nat.testBit_mod_two_pow,
    Nat.testBit_shiftLeft, Nat.testBit_two_pow_sub_one]
  by_cases hk : k < 31
  · have h1 : 1 + k < 64 := by omega
    have h2 : (1:Nat) ≤ 1 + k := by omega
    simp [hk, h1, h2, Nat.add_sub_cancel_left]
  · simp [hk]

/-- Claim C4: after `authentication_server(a)` and `account_number(n)`,
the finished identifier reads back auth bit `1` exactly when `a ≥ 1`
(else `0`), and account number `n mod 2^31` (high bits truncated
silently); for `a ∈ {0,1}` and `n < 2^31` this is exact round-tripping. -/
theorem c4_round_trip (b : SteamIdBuilder) (a n : Nat) :
    (((b.authentication_server a).account_number n).finish).authentication_server
      = (if 1 ≤ a then 1 else 0)
    ∧ (((b.authentication_server a).account_number n).finish).account_number = n % 2 ^ 31 := by
  constructor
  · show (((b.authentication_server a).account_number n).finish).id &&& mask.AUTH_SERVER = _
    simp only [SteamIdBuilder.finish, SteamIdBuilder.account_number,
      SteamIdBuilder.authentication_server]
    rw [replace_bits_and,
      show not64 mask.ACCOUNT_NUMBER &&& mask.AUTH_SERVER = mask.AUTH_SERVER from by decide,
      show mask.ACCOUNT_NUMBER &&& mask.AUTH_SERVER = 0 from by decide,
      Nat.and_zero, Nat.or_zero, replace_bits_and,
      show not64 mask.AUTH_SERVER &&& mask.AUTH_SERVER = 0 from by decide,
      show mask.AUTH_SERVER &&& mask.AUTH_SERVER = mask.AUTH_SERVER from by decide,
      Nat.and_zero, Nat.zero_or]
    by_cases ha : 1 ≤ a <;> simp [ha, shift.AUTH_SERVER] <;> decide
  · show ((((b.authentication_server a).account_number n).finish).id &&&
      mask.ACCOUNT_NUMBER) >>> shift.ACCOUNT_NUMBER = _
    simp only [SteamIdBuilder.finish, SteamIdBuilder.account_number,
      SteamIdBuilder.authentication_server]
    rw [replace_bits_and,
      show not64 mask.ACCOUNT_NUMBER &&& mask.ACCOUNT_NUMBER = 0 from by decide,
      show mask.ACCOUNT_NUMBER &&& mask.ACCOUNT_NUMBER = mask.ACCOUNT_NUMBER from by decide,
      Nat.and_zero, Nat.zero_or]
    exact accnum_mask_arith n

theorem account_type_preserve_and_other (b : SteamIdBuilder) (t : AccountType) (w : Nat)
    (h1 : not64 mask.ACCOUNT_TYPE &&& w = w) (h2 : mask.ACCOUNT_TYPE &&& w = 0) :
    (b.account_type_preserve_bits t).id &&& w = b.id &&& w := by
  simp only [SteamIdBuilder.account_type_preserve_bits]
  rw [replace_bits_and, h1, h2, Nat.and_zero, Nat.or_zero]

theorem instance_and_INSTANCE (b : SteamIdBuilder) (i : Instance) :
    (b.instance_ i).id &&& mask.INSTANCE = Instance.toU32 i <<< shift.INSTANCE := by
  simp only [SteamIdBuilder.instance_]
  rw [replace_bits_and,
    show not64 mask.INSTANCE &&& mask.INSTANCE = 0 from by decide,
    show mask.INSTANCE &&& mask.INSTANCE = mask.INSTANCE from by decide,
    Nat.and_zero, Nat.zero_or]
  cases i <;> rename_i c <;> cases c <;> decide

/-- Claim C2: `account_type(v)` writes the 4-bit account-type field; it
leaves the Instance field untouched for Invalid and Individual, forces
it to the None-kind instance carrying chat type `c` for `Chat c` (so
reading `instance()` back after `account_type('c')` gives 16384), and
forces it to the None-kind instance with default chat type for every
other account type (so `instance(4)` followed by `account_type('A')`
reads back 0). -/
theorem c2_account_type_side_effects (b : SteamIdBuilder) (t : AccountType) :
    ((b.account_type t).id &&& mask.ACCOUNT_TYPE = AccountType.toU8 t <<< shift.ACCOUNT_TYPE)
    ∧ (t = .Invalid ∨ t = .Individual →
        (b.account_type t).id &&& mask.INSTANCE = b.id &&& mask.INSTANCE)
    ∧ (∀ c, t = .Chat c →
        (b.account_type t).id &&& mask.INSTANCE = Instance.toU32 (.None c) <<< shift.INSTANCE)
    ∧ (t ≠ .Invalid → t ≠ .Individual → (∀ c, t ≠ .Chat c) →
        (b.account_type t).id &&& mask.INSTANCE =
          Instance.toU32 (.None .None) <<< shift.INSTANCE)
    ∧ Instance.toU32 (Instance.ofSteamId ((b.account_type (AccountType.ofChar 'c')).finish))
        = 16384
    ∧ Instance.toU32 (Instance.ofSteamId
        (((b.instance_ (Instance.ofU32 4)).account_type (AccountType.ofChar 'A')).finish))
        = 0 := by
  have hwrite : ∀ (x : SteamIdBuilder) (u : AccountType),
      (x.account_type_preserve_bits u).id &&& mask.ACCOUNT_TYPE =
        AccountType.toU8 u <<< shift.ACCOUNT_TYPE := by
    intro x u
    simp only [SteamIdBuilder.account_type_preserve_bits]
    rw [replace_bits_and,
      show not64 mask.ACCOUNT_TYPE &&& mask.ACCOUNT_TYPE = 0 from by decide,
      show mask.ACCOUNT_TYPE &&& mask.ACCOUNT_TYPE = mask.ACCOUNT_TYPE from by decide,
      Nat.and_zero, Nat.zero_or]
    cases u <;> simp only [AccountType.toU8] <;> decide
  have hfr : ∀ (x : SteamIdBuilder) (u : AccountType),
      (x.account_type_preserve_bits u).id &&& mask.INSTANCE = x.id &&& mask.INSTANCE :=
    fun x u => account_type_preserve_and_other x u mask.INSTANCE (by decide) (by decide)
  have hchat : ∀ c, (b.account_type (.Chat c)).id &&& mask.INSTANCE =
      Instance.toU32 (.None c) <<< shift.INSTANCE := by
    intro c
    show ((b.instance_ (.None c)).account_type_preserve_bits (.Chat c)).id &&&
      mask.INSTANCE = _
    rw [hfr, instance_and_INSTANCE]
  refine ⟨?_, ?_, ?_, ?_, ?_, ?_⟩
  · cases t <;> exact hwrite _ _
  · rintro (rfl | rfl) <;> exact hfr b _
  · rintro c rfl
    exact hchat c
  · intro h1 h2 h3
    cases t with
    | Invalid => exact absurd rfl h1
    | Individual => exact absurd rfl h2
    | Chat c => exact absurd rfl (h3 c)
    | Multiseat => rw [show b.account_type .Multiseat =
        (b.instance_ (.None .None)).account_type_preserve_bits .Multiseat from rfl,
        hfr, instance_and_INSTANCE]
    | GameServer => rw [show b.account_type .GameServer =
        (b.instance_ (.None .None)).account_type_preserve_bits .GameServer from rfl,
        hfr, instance_and_INSTANCE]
    | AnonGameServer => rw [show b.account_type .AnonGameServer =
        (b.instance_ (.None .None)).account_type_preserve_bits .AnonGameServer from rfl,
        hfr, instance_and_INSTANCE]
    | Pending => rw [show b.account_type .Pending =
        (b.instance_ (.None .None)).account_type_preserve_bits .Pending from rfl,
        hfr, instance_and_INSTANCE]
    | ContentServer => rw [show b.account_type .ContentServer =
        (b.instance_ (.None .None)).account_type_preserve_bits .ContentServer from rfl,
        hfr, instance_and_INSTANCE]
    | Clan => rw [show b.account_type .Clan =
        (b.instance_ (.None .None)).account_type_preserve_bits .Clan from rfl,
        hfr, instance_and_INSTANCE]
    | ConsoleUser => rw [show b.account_type .ConsoleUser =
        (b.instance_ (.None .None)).account_type_preserve_bits .ConsoleUser from rfl,
        hfr, instance_and_INSTANCE]
    | AnonUser => rw [show b.account_type .AnonUser =
        (b.instance_ (.None .None)).account_type_preserve_bits .AnonUser from rfl,
        hfr, instance_and_INSTANCE]
  · have h := hchat .ClanChat
    simp only [Instance.ofSteamId, SteamIdBuilder.finish, AccountType.ofChar] at *
    rw [h]
    decide
  · show Instance.toU32 (Instance.ofU32
      ((((b.instance_ (Instance.ofU32 4)).account_type (AccountType.ofChar 'A')).id &&&
        mask.INSTANCE) >>> shift.INSTANCE)) = 0
    rw [show (b.instance_ (Instance.ofU32 4)).account_type (AccountType.ofChar 'A') =
      ((b.instance_ (Instance.ofU32 4)).instance_ (.None .None)).account_type_preserve_bits
        .AnonGameServer from rfl, hfr, instance_and_INSTANCE]
    decide

/-- Closed instance of `c2_account_type_side_effects`. -/
theorem c2_account_type_side_effects_witness :
    ((⟨76561197990953833⟩ : SteamIdBuilder).account_type .Individual).id &&& mask.INSTANCE
        = (76561197990953833 : Nat) &&& mask.INSTANCE
    ∧ ((⟨76561197990953833⟩ : SteamIdBuilder).account_type (.Chat .Lobby)).id &&& mask.INSTANCE
        = Instance.toU32 (.None .Lobby) <<< shift.INSTANCE
    ∧ ((⟨76561197990953833⟩ : SteamIdBuilder).account_type .Multiseat).id &&& mask.INSTANCE
        = Instance.toU32 (.None .None) <<< shift.INSTANCE :=
  ⟨(c2_account_type_side_effects ⟨76561197990953833⟩ .Individual).2.1 (Or.inr rfl),
   (c2_account_type_side_effects ⟨76561197990953833⟩ (.Chat .Lobby)).2.2.1 .Lobby rfl,
   (c2_account_type_side_effects ⟨76561197990953833⟩ .Multiseat).2.2.2.1
     (by intro h; cases h) (by intro h; cases h) (by intro c h; cases h)⟩

/-! Helper lemmas about the string-parsing primitives. -/

theorem digitsAux_mem_isDigit :
    ∀ (cs : List Char) (acc v : Nat), digitsAux acc cs = some v →
      ∀ c ∈ cs, c.isDigit = true := by
  intro cs
  induction cs with
  | nil => intro acc v _ c hc; cases hc
  | cons a as ih =>
    intro acc v h c hc
    simp only [digitsAux] at h
    by_cases hd : a.isDigit
    · rw [if_pos hd] at h
      rcases List.mem_cons.mp hc with rfl | hc
      · exact hd
      · exact ih _ _ h c hc
    · rw [if_neg hd] at h
      cases h

theorem parseUnsigned_mem {B : Nat} {cs : List Char} {v : Nat}
    (h : parseUnsigned B cs = some v) : ∀ c ∈ cs, c.isDigit = true ∨ c = '+' := by
  intro c hc
  simp only [parseUnsigned] at h
  by_cases hh : cs.head? = some '+'
  · rw [if_pos hh] at h
    by_cases hb : cs.tail = []
    · rw [if_pos hb] at h
      cases h
    · rw [if_neg hb] at h
      split at h
      · rename_i w hw
        rcases cs with _ | ⟨a, rest⟩
        · cases hc
        · have ha : a = '+' := by simpa using hh
          rcases List.mem_cons.mp hc with rfl | hc
          · exact Or.inr ha
          · exact Or.inl (digitsAux_mem_isDigit rest 0 w hw c hc)
      · cases h
  · rw [if_neg hh] at h
    by_cases hb : cs = []
    · rw [if_pos hb] at h
      cases h
    · rw [if_neg hb] at h
      split at h
      · rename_i w hw
        exact Or.inl (digitsAux_mem_isDigit cs 0 w hw c hc)
      · cases h

theorem parseUnsigned_no_colon {B : Nat} {cs : List Char} {v : Nat}
    (h : parseUnsigned B cs = some v) : ':' ∉ cs := by
  intro hmem
  rcases parseUnsigned_mem h ':' hmem with h1 | h1 <;> cases h1

theorem parseU64_no_colon {cs : List Char} {v : Nat}
    (h : parseU64 cs = some v) : ':' ∉ cs :=
  parseUnsigned_no_colon h

theorem parseU8_no_colon {cs : List Char} {v : Nat}
    (h : parseU8 cs = some v) : ':' ∉ cs :=
  parseUnsigned_no_colon h

theorem parseUnsigned_lt {B : Nat} {cs : List Char} {v : Nat}
    (h : parseUnsigned B cs = some v) : v < B := by
  simp only [parseUnsigned] at h
  by_cases hb : (if cs.head? = some '+' then cs.tail else cs) = []
  · rw [if_pos hb] at h
    cases h
  · rw [if_neg hb] at h
    split at h
    · rename_i w hw
      by_cases hv : w < B
      · rw [if_pos hv] at h
        cases h
        exact hv
      · rw [if_neg hv] at h
        cases h
    · cases h

theorem splitColon_ne_nil (l : List Char) : splitColon l ≠ [] := by
  cases l with
  | nil => simp [splitColon]
  | cons c rest =>
    simp only [splitColon]
    split
    · simp
    · split <;> simp

theorem splitColon_append (a b : List Char) (ha : ':' ∉ a) :
    splitColon (a ++ ':' :: b) = a :: splitColon b := by
  induction a with
  | nil => simp [splitColon]
  | cons c cs ih =>
    have hc : ¬ c = ':' := fun h => ha (h ▸ List.mem_cons_self c cs)
    have hcs : ':' ∉ cs := fun h => ha (List.mem_cons_of_mem c h)
    show splitColon (c :: (cs ++ ':' :: b)) = (c :: cs) :: splitColon b
    simp only [splitColon, if_neg hc]
    rw [ih hcs]

theorem splitColon_single (a : List Char) (ha : ':' ∉ a) : splitColon a = [a] := by
  induction a with
  | nil => simp [splitColon]
  | cons c cs ih =>
    have hc : ¬ c = ':' := fun h => ha (h ▸ List.mem_cons_self c cs)
    have hcs : ':' ∉ cs := fun h => ha (List.mem_cons_of_mem c h)
    simp only [splitColon, if_neg hc]
    rw [ih hcs]

theorem splitColon_mem_no_colon :
    ∀ (l x : List Char), x ∈ splitColon l → ':' ∉ x := by
  intro l
  induction l with
  | nil =>
    intro x hx
    simp [splitColon] at hx
    simp [hx]
  | cons c rest ih =>
    intro x hx
    simp only [splitColon] at hx
    by_cases hc : c = ':'
    · rw [if_pos hc] at hx
      rcases List.mem_cons.mp hx with rfl | hx
      · simp
      · exact ih x hx
    · rw [if_neg hc] at hx
      cases hsp : splitColon rest with
      | nil => exact absurd hsp (splitColon_ne_nil rest)
      | cons h t =>
        rw [hsp] at hx
        rcases List.mem_cons.mp hx with rfl | hx
        · intro hmem
          rcases List.mem_cons.mp hmem with h1 | h1
          · exact hc h1.symm
          · exact ih h (hsp ▸ List.mem_cons_self h t) h1
        · exact ih x (hsp ▸ List.mem_cons_of_mem h hx)

/-- Decidable equality of parse results, for evaluating the parser on
concrete inputs. -/
instance {e a : Type} [DecidableEq e] [DecidableEq a] : DecidableEq (Except e a) := fun x y =>
  match x, y with
  | .ok u, .ok w =>
    if h : u = w then isTrue (by rw [h]) else isFalse (by intro hh; cases hh; exact h rfl)
  | .error u, .error w =>
    if h : u = w then isTrue (by rw [h]) else isFalse (by intro hh; cases hh; exact h rfl)
  | .ok _, .error _ => isFalse (by intro hh; cases hh)
  | .error _, .ok _ => isFalse (by intro hh; cases hh)

theorem parse_from_steamid2_eval (x : Char) (y z : List Char)
    (hx : ¬ x = ':') (hy : ':' ∉ y) (hz : ':' ∉ z) :
    parse_from_steamid2 (['S','T','E','A','M','_'] ++ (x :: ':' :: (y ++ ':' :: z))) =
      (match parseU8 [x] with
       | none => .error (.Invalid .Universe)
       | some u =>
         match parseU64 y with
         | none => .error (.Invalid .AuthServer)
         | some a =>
           if a < 2 then
             match parseU64 z with
             | none => .error (.Invalid .AccountNumber)
             | some n =>
               if n < 2 ^ 31 then
                 .ok ((((SteamIdBuilder.new.universe_ (Universe.ofU8 (Nat.max u 1))).authentication_server
                   a).account_number n).account_type (AccountType.ofChar 'U'))
               else .error (.Invalid .AccountNumber)
           else .error (.Invalid .AuthServer)) := by
  have hxs : ':' ∉ [x] := fun hm => hx ((List.mem_singleton.mp hm).symm)
  have hdrop : (['S','T','E','A','M','_'] ++ (x :: ':' :: (y ++ ':' :: z))).drop 6
      = [x] ++ ':' :: (y ++ ':' :: z) := rfl
  have hsplit : splitColon ([x] ++ ':' :: (y ++ ':' :: z)) = [x] :: y :: [z] := by
    rw [splitColon_append [x] _ hxs, splitColon_append y _ hy, splitColon_single z hz]
  have hlen : ¬ (['S','T','E','A','M','_'] ++ (x :: ':' :: (y ++ ':' :: z))).length < 6 := by
    simp
  simp only [parse_from_steamid2, if_neg hlen, hdrop, hsplit]

/-- Claim C1: the three reference strings parse through the SteamId64,
SteamId2 and SteamId3 grammars respectively, each yielding packed value
76561197990953833; and for every valid SteamId2 body, `STEAM_0:Y:Z`
parses to the identical result as `STEAM_1:Y:Z` (universe 0 is
normalized to 1/Public). -/
theorem c1_format_detection :
    fromStr "76561197990953833".data = .ok ⟨76561197990953833⟩
    ∧ fromStr "STEAM_1:1:15344052".data = .ok ⟨76561197990953833⟩
    ∧ fromStr "[U:1:30688105]".data = .ok ⟨76561197990953833⟩
    ∧ ∀ (y z : List Char) (vy vz : Nat), parseU64 y = some vy → vy < 2 →
        parseU64 z = some vz → vz < 2 ^ 31 →
        parse_from_steamid2 ("STEAM_0:".data ++ y ++ ':' :: z) =
          parse_from_steamid2 ("STEAM_1:".data ++ y ++ ':' :: z) := by
  refine ⟨by decide, by decide, by decide, ?_⟩
  intro y z vy vz hy hvy hz hvz
  have hyc : ':' ∉ y := parseU64_no_colon hy
  have hzc : ':' ∉ z := parseU64_no_colon hz
  show parse_from_steamid2 (['S','T','E','A','M','_'] ++ ('0' :: ':' :: (y ++ ':' :: z))) =
    parse_from_steamid2 (['S','T','E','A','M','_'] ++ ('1' :: ':' :: (y ++ ':' :: z)))
  rw [parse_from_steamid2_eval '0' y z (by decide) hyc hzc,
    parse_from_steamid2_eval '1' y z (by decide) hyc hzc]
  show (match parseU64 y with
       | none => Except.error (ParseError.Invalid Field.AuthServer)
       | some a =>
         if a < 2 then
           match parseU64 z with
           | none => Except.error (ParseError.Invalid Field.AccountNumber)
           | some n =>
             if n < 2 ^ 31 then
               Except.ok ((((SteamIdBuilder.new.universe_ (Universe.ofU8 (Nat.max 0 1))).authentication_server
                 a).account_number n).account_type (AccountType.ofChar 'U'))
             else Except.error (ParseError.Invalid Field.AccountNumber)
         else Except.error (ParseError.Invalid Field.AuthServer)) =
      (match parseU64 y with
       | none => Except.error (ParseError.Invalid Field.AuthServer)
       | some a =>
         if a < 2 then
           match parseU64 z with
           | none => Except.error (ParseError.Invalid Field.AccountNumber)
           | some n =>
             if n < 2 ^ 31 then
               Except.ok ((((SteamIdBuilder.new.universe_ (Universe.ofU8 (Nat.max 1 1))).authentication_server
                 a).account_number n).account_type (AccountType.ofChar 'U'))
             else Except.error (ParseError.Invalid Field.AccountNumber)
         else Except.error (ParseError.Invalid Field.AuthServer))
  rw [hy, hz]
  norm_num

/-- Closed instance of the quantified part of `c1_format_detection`. -/
theorem c1_format_detection_witness :
    parse_from_steamid2 ("STEAM_0:".data ++ "1".data ++ ':' :: "15344052".data) =
      parse_from_steamid2 ("STEAM_1:".data ++ "1".data ++ ':' :: "15344052".data) :=
  c1_format_detection.2.2.2 "1".data "15344052".data 1 15344052
    (by decide) (by decide) (by decide) (by decide)

theorem replace_bits_and_frame (x m n w : Nat) (h1 : not64 m &&& w = w) (h2 : m &&& w = 0) :
    replace_bits x m n &&& w = x &&& w := by
  rw [replace_bits_and, h1, h2, Nat.and_zero, Nat.or_zero]

theorem universe_and_UNIVERSE (b : SteamIdBuilder) (U : Universe) :
    (b.universe_ U).id &&& mask.UNIVERSE = Universe.toU8 U <<< shift.UNIVERSE := by
  simp only [SteamIdBuilder.universe_]
  rw [replace_bits_and,
    show not64 mask.UNIVERSE &&& mask.UNIVERSE = 0 from by decide,
    show mask.UNIVERSE &&& mask.UNIVERSE = mask.UNIVERSE from by decide,
    Nat.and_zero, Nat.zero_or]
  cases U <;> decide

theorem auth_and_AUTH (b : SteamIdBuilder) (A : Nat) :
    (b.authentication_server A).id &&& mask.AUTH_SERVER = if 1 ≤ A then 1 else 0 := by
  simp only [SteamIdBuilder.authentication_server]
  rw [replace_bits_and,
    show not64 mask.AUTH_SERVER &&& mask.AUTH_SERVER = 0 from by decide,
    show mask.AUTH_SERVER &&& mask.AUTH_SERVER = mask.AUTH_SERVER from by decide,
    Nat.and_zero, Nat.zero_or]
  by_cases hA : 1 ≤ A <;> simp [hA, shift.AUTH_SERVER] <;> decide

/-- The builder chain shared by both grammar parsers, for stating field
extraction lemmas. -/
def parserChain (U : Universe) (A N : Nat) (T : AccountType) : SteamIdBuilder :=
  (((SteamIdBuilder.new.universe_ U).authentication_server A).account_number N).account_type T

theorem account_type_matches_preserve (b : SteamIdBuilder) (T : AccountType) :
    (∃ i, b.account_type T = (b.instance_ i).account_type_preserve_bits T)
    ∨ b.account_type T = b.account_type_preserve_bits T := by
  cases T with
  | Invalid => exact Or.inr rfl
  | Individual => exact Or.inr rfl
  | Chat c => exact Or.inl ⟨.None c, rfl⟩
  | Multiseat => exact Or.inl ⟨.None .None, rfl⟩
  | GameServer => exact Or.inl ⟨.None .None, rfl⟩
  | AnonGameServer => exact Or.inl ⟨.None .None, rfl⟩
  | Pending => exact Or.inl ⟨.None .None, rfl⟩
  | ContentServer => exact Or.inl ⟨.None .None, rfl⟩
  | Clan => exact Or.inl ⟨.None .None, rfl⟩
  | ConsoleUser => exact Or.inl ⟨.None .None, rfl⟩
  | AnonUser => exact Or.inl ⟨.None .None, rfl⟩

theorem account_type_and_other (b : SteamIdBuilder) (T : AccountType) (w : Nat)
    (h1 : not64 mask.ACCOUNT_TYPE &&& w = w) (h2 : mask.ACCOUNT_TYPE &&& w = 0)
    (h3 : not64 mask.INSTANCE &&& w = w) (h4 : mask.INSTANCE &&& w = 0) :
    (b.account_type T).id &&& w = b.id &&& w := by
  rcases account_type_matches_preserve b T with ⟨i, hi⟩ | hp
  · rw [hi]
    simp only [SteamIdBuilder.account_type_preserve_bits, SteamIdBuilder.instance_]
    rw [replace_bits_and_frame _ _ _ _ h1 h2, replace_bits_and_frame _ _ _ _ h3 h4]
  · rw [hp]
    simp only [SteamIdBuilder.account_type_preserve_bits]
    rw [replace_bits_and_frame _ _ _ _ h1 h2]

theorem parserChain_univ (U : Universe) (A N : Nat) (T : AccountType) :
    (parserChain U A N T).id &&& mask.UNIVERSE = Universe.toU8 U <<< shift.UNIVERSE := by
  rw [parserChain, account_type_and_other _ _ _ (by decide) (by decide) (by decide) (by decide)]
  simp only [SteamIdBuilder.account_number, SteamIdBuilder.authentication_server]
  rw [replace_bits_and_frame _ _ _ _ (by decide) (by decide),
    replace_bits_and_frame _ _ _ _ (by decide) (by decide)]
  exact universe_and_UNIVERSE _ U

theorem parserChain_auth (U : Universe) (A N : Nat) (T : AccountType) :
    (parserChain U A N T).id &&& mask.AUTH_SERVER = if 1 ≤ A then 1 else 0 := by
  rw [parserChain, account_type_and_other _ _ _ (by decide) (by decide) (by decide) (by decide)]
  simp only [SteamIdBuilder.account_number]
  rw [replace_bits_and_frame _ _ _ _ (by decide) (by decide)]
  exact auth_and_AUTH _ A

theorem parserChain_accnum (U : Universe) (A N : Nat) (T : AccountType) :
    ((parserChain U A N T).id &&& mask.ACCOUNT_NUMBER) >>> shift.ACCOUNT_NUMBER = N % 2 ^ 31 := by
  rw [parserChain, account_type_and_other _ _ _ (by decide) (by decide) (by decide) (by decide)]
  simp only [SteamIdBuilder.account_number]
  rw [replace_bits_and,
    show not64 mask.ACCOUNT_NUMBER &&& mask.ACCOUNT_NUMBER = 0 from by decide,
    show mask.ACCOUNT_NUMBER &&& mask.ACCOUNT_NUMBER = mask.ACCOUNT_NUMBER from by decide,
    Nat.and_zero, Nat.zero_or]
  exact accnum_mask_arith N

/-- Claim C6: a SteamId2 input whose auth-server subfield parses to a
value of two or more is rejected with `Invalid(AuthServer)` — whatever
follows in the account-number subfield — whereas the builder mutator
`authentication_server` silently clamps every nonzero value to one. -/
theorem c6_auth_strictness :
    (∀ (u y z : List Char) (X vy : Nat), parseU8 u = some X → parseU64 y = some vy →
      2 ≤ vy →
      parse_from_steamid2 ("STEAM_".data ++ (u ++ ':' :: (y ++ ':' :: z))) =
        .error (.Invalid .AuthServer))
    ∧ (∀ (b : SteamIdBuilder) (v : Nat), 1 ≤ v →
      (b.authentication_server v).id &&& mask.AUTH_SERVER = 1) := by
  constructor
  · intro u y z X vy hu hy hvy
    have huc : ':' ∉ u := parseU8_no_colon hu
    have hyc : ':' ∉ y := parseU64_no_colon hy
    have hlen : ¬ ("STEAM_".data ++ (u ++ ':' :: (y ++ ':' :: z))).length < 6 := by
      simp
    have hdrop : ("STEAM_".data ++ (u ++ ':' :: (y ++ ':' :: z))).drop 6
        = u ++ ':' :: (y ++ ':' :: z) := rfl
    have hsplit : splitColon (u ++ ':' :: (y ++ ':' :: z)) = u :: y :: splitColon z := by
      rw [splitColon_append u _ huc, splitColon_append y _ hyc]
    simp only [parse_from_steamid2, if_neg hlen, hdrop, hsplit, hu, hy]
    rw [if_neg (by omega : ¬ vy < 2)]
  · intro b v hv
    rw [auth_and_AUTH, if_pos hv]

/-- Closed instance of `c6_auth_strictness`. -/
theorem c6_auth_strictness_witness :
    parse_from_steamid2 ("STEAM_".data ++ ("1".data ++ ':' :: ("2".data ++ ':' :: "7".data)))
      = .error (.Invalid .AuthServer)
    ∧ ((⟨0⟩ : SteamIdBuilder).authentication_server 9).id &&& mask.AUTH_SERVER = 1 :=
  ⟨c6_auth_strictness.1 "1".data "2".data "7".data 1 2 (by decide) (by decide) (by decide),
   c6_auth_strictness.2 ⟨0⟩ 9 (by decide)⟩

theorem universe_ofU8_ge_6 (n : Nat) : Universe.ofU8 (n + 6) = .Unspecified := rfl

/-- Claim C10: for a SteamId2 input with valid auth-server and
account-number subfields, a universe subfield parsing as a u8 in 6..=255
is accepted but stored as raw universe 0 (Unspecified), because the
0-to-1 promotion happens on the numeric value before the lossy
u8-to-Universe conversion collapses unknown values; a universe subfield
of 0 is stored as raw universe 1 (Public). -/
theorem c10_universe_collapse :
    ∀ (u y z : List Char) (X vy vz : Nat),
    parseU8 u = some X → parseU64 y = some vy → vy < 2 →
    parseU64 z = some vz → vz < 2 ^ 31 →
    ((6 ≤ X → ∃ b, parse_from_steamid2 ("STEAM_".data ++ (u ++ ':' :: (y ++ ':' :: z)))
        = .ok b ∧ b.id &&& mask.UNIVERSE = 0)
     ∧ (X = 0 → ∃ b, parse_from_steamid2 ("STEAM_".data ++ (u ++ ':' :: (y ++ ':' :: z)))
        = .ok b ∧ b.id &&& mask.UNIVERSE = 1 <<< 56)) := by
  intro u y z X vy vz hu hy hvy hz hvz
  have huc : ':' ∉ u := parseU8_no_colon hu
  have hyc : ':' ∉ y := parseU64_no_colon hy
  have hzc : ':' ∉ z := parseU64_no_colon hz
  have hlen : ¬ ("STEAM_".data ++ (u ++ ':' :: (y ++ ':' :: z))).length < 6 := by
    simp
  have hdrop : ("STEAM_".data ++ (u ++ ':' :: (y ++ ':' :: z))).drop 6
      = u ++ ':' :: (y ++ ':' :: z) := rfl
  have hsplit : splitColon (u ++ ':' :: (y ++ ':' :: z)) = u :: y :: [z] := by
    rw [splitColon_append u _ huc, splitColon_append y _ hyc, splitColon_single z hzc]
  have hred : parse_from_steamid2 ("STEAM_".data ++ (u ++ ':' :: (y ++ ':' :: z)))
      = .ok (parserChain (Universe.ofU8 (Nat.max X 1)) vy vz (AccountType.ofChar 'U')) := by
    simp only [parse_from_steamid2, if_neg hlen, hdrop, hsplit, hu, hy, hz]
    rw [if_pos hvy, if_pos hvz]
    rfl
  constructor
  · intro hX
    obtain ⟨k, rfl⟩ : ∃ k, X = k + 6 := ⟨X - 6, by omega⟩
    refine ⟨_, hred, ?_⟩
    have hm : Nat.max (k + 6) 1 = k + 6 := by
      rw [show Nat.max (k + 6) 1 = if k + 6 ≤ 1 then 1 else k + 6 from rfl, if_neg (by omega)]
    rw [parserChain_univ, hm, universe_ofU8_ge_6]
    decide
  · intro hX
    subst hX
    refine ⟨_, hred, ?_⟩
    rw [parserChain_univ]
    decide

/-- Closed instance of `c10_universe_collapse`. -/
theorem c10_universe_collapse_witness :
    (∃ b, parse_from_steamid2 ("STEAM_".data ++ ("250".data ++ ':' :: ("1".data ++ ':' :: "7".data)))
        = .ok b ∧ b.id &&& mask.UNIVERSE = 0)
    ∧ (∃ b, parse_from_steamid2 ("STEAM_".data ++ ("0".data ++ ':' :: ("1".data ++ ':' :: "7".data)))
        = .ok b ∧ b.id &&& mask.UNIVERSE = 1 <<< 56) :=
  ⟨(c10_universe_collapse "250".data "1".data "7".data 250 1 7
      (by decide) (by decide) (by decide) (by decide) (by decide)).1 (by decide),
   (c10_universe_collapse "0".data "1".data "7".data 0 1 7
      (by decide) (by decide) (by decide) (by decide) (by decide)).2 rfl⟩

theorem parse_from_steamid3_eval (t u p : List Char)
    (ht : ':' ∉ t) (hu : ':' ∉ u) (hp : ':' ∉ p) :
    parse_from_steamid3 ('[' :: ((t ++ ':' :: (u ++ ':' :: p)) ++ [']'])) =
      (match parseU8 u with
       | none => .error (.Invalid .Universe)
       | some uv =>
         match parseU64 p with
         | none => .error (.Invalid .AuthServer)
         | some av =>
           match parseU64 p with
           | none => .error (.Invalid .AccountNumber)
           | some nv =>
             if nv ≤ 4294967295 then
               match charFromStr t with
               | none => .error (.Invalid .AccountType)
               | some ch =>
                 if ch.isAlpha then
                   .ok (parserChain (Universe.ofU8 uv) (av &&& mask.AUTH_SERVER)
                     (nv >>> shift.ACCOUNT_NUMBER) (AccountType.ofChar ch))
                 else .error (.Invalid .AccountType)
             else .error (.Invalid .AccountNumber)) := by
  have hlast : ('[' :: ((t ++ ':' :: (u ++ ':' :: p)) ++ [']'])).getLast? = some ']' := by
    rw [show '[' :: ((t ++ ':' :: (u ++ ':' :: p)) ++ [']'])
        = ('[' :: (t ++ ':' :: (u ++ ':' :: p))) ++ [']'] from rfl, List.getLast?_concat]
  have hlen2 : ¬ ('[' :: ((t ++ ':' :: (u ++ ':' :: p)) ++ [']'])).length < 2 := by
    simp
    omega
  have hmid : (('[' :: ((t ++ ':' :: (u ++ ':' :: p)) ++ [']'])).drop 1).take
      (('[' :: ((t ++ ':' :: (u ++ ':' :: p)) ++ [']'])).length - 2)
      = t ++ ':' :: (u ++ ':' :: p) := by
    show ((t ++ ':' :: (u ++ ':' :: p)) ++ [']']).take
      (((t ++ ':' :: (u ++ ':' :: p)) ++ [']']).length + 1 - 2) = _
    have hl : ((t ++ ':' :: (u ++ ':' :: p)) ++ [']']).length + 1 - 2
        = (t ++ ':' :: (u ++ ':' :: p)).length := by
      simp
      omega
    rw [hl, List.take_left]
  have hsplit : splitColon (t ++ ':' :: (u ++ ':' :: p)) = t :: u :: [p] := by
    rw [splitColon_append t _ ht, splitColon_append u _ hu, splitColon_single p hp]
  simp only [parse_from_steamid3, hlast]
  rw [if_pos trivial, if_neg hlen2, hmid, hsplit]
  rfl

/-- Claim C5: in the SteamId3 grammar the third field is parsed once as
an unsigned 64-bit integer `v`; if `v` exceeds 2^32-1 parsing fails with
`Invalid(AccountNumber)`, otherwise the resulting identifier has
auth-server field `v &&& 1` and account-number field `v >>> 1`. -/
theorem c5_packed_field :
    ∀ (t u p : List Char) (U v : Nat), ':' ∉ t →
    parseU8 u = some U → parseU64 p = some v →
    ((4294967295 < v →
        parse_from_steamid3 ('[' :: ((t ++ ':' :: (u ++ ':' :: p)) ++ [']'])) =
          .error (.Invalid .AccountNumber))
     ∧ (v ≤ 4294967295 → ∀ ch, t = [ch] → ch.isAlpha = true →
        ∃ b, parse_from_steamid3 ('[' :: ((t ++ ':' :: (u ++ ':' :: p)) ++ [']'])) = .ok b
          ∧ b.finish.authentication_server = v &&& 1
          ∧ b.finish.account_number = v >>> 1)) := by
  intro t u p U v ht hu hp
  have heval := parse_from_steamid3_eval t u p ht (parseU8_no_colon hu) (parseU64_no_colon hp)
  simp only [hu, hp] at heval
  constructor
  · intro hv
    rw [heval, if_neg (by omega : ¬ v ≤ 4294967295)]
  · intro hv ch hch halpha
    subst hch
    refine ⟨parserChain (Universe.ofU8 U) (v &&& mask.AUTH_SERVER)
      (v >>> shift.ACCOUNT_NUMBER) (AccountType.ofChar ch), ?_, ?_, ?_⟩
    · rw [heval, if_pos hv]
      show (match charFromStr [ch] with
        | none => Except.error (ParseError.Invalid Field.AccountType)
        | some c =>
          if c.isAlpha then
            Except.ok (parserChain (Universe.ofU8 U) (v &&& mask.AUTH_SERVER)
              (v >>> shift.ACCOUNT_NUMBER) (AccountType.ofChar c))
          else Except.error (ParseError.Invalid Field.AccountType)) = _
      simp only [charFromStr]
      rw [if_pos halpha]
    · show (parserChain _ _ _ _).id &&& mask.AUTH_SERVER = v &&& 1
      rw [parserChain_auth]
      rw [show mask.AUTH_SERVER = 1 from rfl, Nat.and_one_is_mod]
      rcases Nat.mod_two_eq_zero_or_one v with h | h <;> rw [h] <;> decide
    · show ((parserChain _ _ _ _).id &&& mask.ACCOUNT_NUMBER) >>> shift.ACCOUNT_NUMBER
        = v >>> 1
      rw [parserChain_accnum]
      show (v >>> 1) % 2 ^ 31 = v >>> 1
      apply Nat.mod_eq_of_lt
      rw [Nat.shiftRight_eq_div_pow]
      omega

/-- Closed instance of `c5_packed_field`. -/
theorem c5_packed_field_witness :
    (parse_from_steamid3 ('[' :: (("U".data ++ ':' :: ("1".data ++ ':' :: "4294967296".data)) ++ [']'])) =
      .error (.Invalid .AccountNumber))
    ∧ (∃ b, parse_from_steamid3 ('[' :: (("U".data ++ ':' :: ("1".data ++ ':' :: "30688105".data)) ++ [']'])) = .ok b
        ∧ b.finish.authentication_server = 30688105 &&& 1
        ∧ b.finish.account_number = 30688105 >>> 1) :=
  ⟨(c5_packed_field "U".data "1".data "4294967296".data 1 4294967296
      (by decide) (by decide) (by decide)).1 (by decide),
   (c5_packed_field "U".data "1".data "30688105".data 1 30688105
      (by decide) (by decide) (by decide)).2 (by decide) 'U' rfl (by decide)⟩

theorem parse_from_steamid3_bracket (mid : List Char) :
    parse_from_steamid3 ('[' :: (mid ++ [']'])) =
      (match splitColon mid with
       | [] => .error .TooShort
       | acc_type :: rest =>
         match rest with
         | [] => .error .TooShort
         | universeF :: rest2 =>
           match rest2 with
           | [] => .error .TooShort
           | auth_server :: _ =>
             match parseU8 universeF with
             | none => .error (.Invalid .Universe)
             | some uv =>
               match parseU64 auth_server with
               | none => .error (.Invalid .AuthServer)
               | some av =>
                 match parseU64 auth_server with
                 | none => .error (.Invalid .AccountNumber)
                 | some nv =>
                   if nv ≤ 4294967295 then
                     match charFromStr acc_type with
                     | none => .error (.Invalid .AccountType)
                     | some ch =>
                       if ch.isAlpha then
                         .ok (parserChain (Universe.ofU8 uv) (av &&& mask.AUTH_SERVER)
                           (nv >>> shift.ACCOUNT_NUMBER) (AccountType.ofChar ch))
                       else .error (.Invalid .AccountType)
                   else .error (.Invalid .AccountNumber)) := by
  have hlast : ('[' :: (mid ++ [']'])).getLast? = some ']' := by
    rw [show '[' :: (mid ++ [']']) = ('[' :: mid) ++ [']'] from rfl, List.getLast?_concat]
  have hlen2 : ¬ ('[' :: (mid ++ [']'])).length < 2 := by
    simp
  have hmid : (('[' :: (mid ++ [']'])).drop 1).take (('[' :: (mid ++ [']'])).length - 2)
      = mid := by
    show (mid ++ [']']).take ((mid ++ [']']).length + 1 - 2) = _
    have hl : (mid ++ [']']).length + 1 - 2 = mid.length := by
      simp
    rw [hl, List.take_left]
  simp only [parse_from_steamid3, hlast]
  rw [if_pos trivial, if_neg hlen2, hmid]
  rfl

/-- Refutation of claim C7 as stated: an input with four colon-separated
fields between the brackets parses successfully. -/
theorem c7_extra_fields_counterexample :
    fromStr "[U:1:2:3]".data = .ok ⟨76561197960265730⟩ := by decide

/-- Claim C7 (amended): for inputs handled by the SteamId3 grammar,
a missing closing bracket fails with `UknownFormat`; with the brackets
present, fewer than three colon-separated fields fail with `TooShort`,
while fields beyond the third are ignored — the input parses exactly as
if only the first three fields were present (so an input with more than
three fields can parse successfully). -/
theorem c7_steamid3_structure :
    ∀ (s : List Char), s.head? = some '[' →
    ((s.getLast? ≠ some ']' → parse_from_steamid3 s = .error .UknownFormat)
     ∧ (∀ mid, s = '[' :: (mid ++ [']']) → (splitColon mid).length < 3 →
         parse_from_steamid3 s = .error .TooShort)
     ∧ (∀ mid f1 f2 f3 rest, s = '[' :: (mid ++ [']']) →
         splitColon mid = f1 :: f2 :: f3 :: rest →
         parse_from_steamid3 s =
           parse_from_steamid3 ('[' :: ((f1 ++ ':' :: (f2 ++ ':' :: f3)) ++ [']'])))) := by
  intro s hhead
  refine ⟨?_, ?_, ?_⟩
  · intro hne
    have hsne : s ≠ [] := by
      intro h
      rw [h] at hhead
      cases hhead
    cases hl : s.getLast? with
    | none => exact absurd (List.getLast?_eq_none_iff.mp hl) hsne
    | some c =>
      have hc : ¬ c = ']' := by
        intro h
        rw [h] at hl
        exact hne hl
      simp only [parse_from_steamid3, hl]
      rw [if_neg hc]
  · intro mid hs hlt
    subst hs
    rw [parse_from_steamid3_bracket]
    cases hsp : splitColon mid with
    | nil => exact absurd hsp (splitColon_ne_nil mid)
    | cons a rest =>
      cases rest with
      | nil => rfl
      | cons b rest2 =>
        cases rest2 with
        | nil => rfl
        | cons d rest3 =>
          rw [hsp] at hlt
          simp at hlt
          omega
  · intro mid f1 f2 f3 rest hs hsp
    subst hs
    have h1 : ':' ∉ f1 :=
      splitColon_mem_no_colon mid f1 (by rw [hsp]; exact List.mem_cons_self _ _)
    have h2 : ':' ∉ f2 :=
      splitColon_mem_no_colon mid f2
        (by rw [hsp]; exact List.mem_cons_of_mem _ (List.mem_cons_self _ _))
    have h3 : ':' ∉ f3 :=
      splitColon_mem_no_colon mid f3
        (by rw [hsp]
            exact List.mem_cons_of_mem _ (List.mem_cons_of_mem _ (List.mem_cons_self _ _)))
    have hsp2 : splitColon (f1 ++ ':' :: (f2 ++ ':' :: f3)) = f1 :: f2 :: [f3] := by
      rw [splitColon_append f1 _ h1, splitColon_append f2 _ h2, splitColon_single f3 h3]
    rw [parse_from_steamid3_bracket, parse_from_steamid3_bracket, hsp, hsp2]

/-- Closed instance of `c7_steamid3_structure`. -/
theorem c7_steamid3_structure_witness :
    parse_from_steamid3 "[U:1".data = .error .UknownFormat
    ∧ parse_from_steamid3 "[U]".data = .error .TooShort
    ∧ parse_from_steamid3 "[U:1:2:3]".data = parse_from_steamid3 "[U:1:2]".data :=
  ⟨(c7_steamid3_structure "[U:1".data rfl).1 (by decide),
   (c7_steamid3_structure "[U]".data rfl).2.1 "U".data rfl (by decide),
   (c7_steamid3_structure "[U:1:2:3]".data rfl).2.2 "U:1:2:3".data
     "U".data "1".data "2".data ["3".data] rfl (by decide)⟩

/-- Refutation of claim C8 as stated: thirty-three zeros trim to a
digit-initial string that parses as the 64-bit integer 0, yet the parser
rejects it with `UknownFormat` (the 32-byte length cap fires first),
not with success and not with `Invalid(SteamId64)`. -/
theorem c8_length_counterexample :
    (trimList (List.replicate 33 '0')).head? = some '0'
    ∧ parseU64 (trimList (List.replicate 33 '0')) = some 0
    ∧ fromStr (List.replicate 33 '0') = .error .UknownFormat := by decide

/-- Claim C8 (amended): for an ASCII input whose trimmed form begins
with a digit and is at most 32 bytes long, the whole trimmed string is
parsed as a 64-bit unsigned decimal — success yields exactly that value
and failure yields `Invalid(SteamId64)`; a trimmed digit-initial input
longer than 32 bytes is instead rejected up front with `UknownFormat`. -/
theorem c8_steamid64_dispatch :
    ∀ (s : List Char), (∀ c ∈ s, c.toNat < 128) →
    ∀ c rest, trimList s = c :: rest → c.isDigit = true →
    (((trimList s).length ≤ 32 →
        ((∀ v, parseU64 (trimList s) = some v → fromStr s = .ok ⟨v⟩)
         ∧ (parseU64 (trimList s) = none → fromStr s = .error (.Invalid .SteamId64))))
     ∧ (32 < (trimList s).length → fromStr s = .error .UknownFormat)) := by
  intro s _ c rest ht hd
  have hdig : '0' ≤ c ∧ c ≤ '9' := by
    simp only [Char.isDigit, Bool.and_eq_true, decide_eq_true_eq] at hd
    exact ⟨hd.1, hd.2⟩
  constructor
  · intro hlen
    have hnot : ¬ 32 < (trimList s).length := by omega
    constructor
    · intro v hv
      simp only [fromStr, if_neg hnot, ht]
      rw [if_pos hdig]
      rw [ht] at hv
      simp only [parse_from_steamid64, hv]
      rw [if_neg (ht ▸ hnot)]
    · intro hv
      simp only [fromStr, if_neg hnot, ht]
      rw [if_pos hdig]
      rw [ht] at hv
      simp only [parse_from_steamid64, hv]
      rw [if_neg (ht ▸ hnot)]
  · intro hlen
    simp only [fromStr, if_pos hlen]

/-- Closed instance of `c8_steamid64_dispatch`. -/
theorem c8_steamid64_dispatch_witness :
    fromStr "76561197990953833".data = .ok ⟨76561197990953833⟩
    ∧ fromStr "7x".data = .error (.Invalid .SteamId64)
    ∧ fromStr (List.replicate 40 '1') = .error .UknownFormat :=
  ⟨((c8_steamid64_dispatch "76561197990953833".data (by decide) '7'
      "6561197990953833".data (by decide) (by decide)).1 (by decide)).1
        76561197990953833 (by decide),
   ((c8_steamid64_dispatch "7x".data (by decide) '7' "x".data
      (by decide) (by decide)).1 (by decide)).2 (by decide),
   (c8_steamid64_dispatch (List.replicate 40 '1') (by decide) '1'
      (List.replicate 39 '1') (by decide) (by decide)).2 (by decide)⟩

/-- Claim C9: formatting in Url mode yields the group URL followed by
the SteamId3 rendering exactly when the account type is Clan, and the
profile URL followed by the SteamId64 rendering for every other account
type; identifier 103582791464489035 renders as the quoted group URL. -/
theorem c9_url_format :
    (∀ v : SteamId, AccountType.ofSteamId v = .Clan →
        fmtUrl v = GROUP_URL ++ fmtSteamId3 v)
    ∧ (∀ v : SteamId, AccountType.ofSteamId v ≠ .Clan →
        fmtUrl v = PROFILE_URL ++ fmtSteamId64 v)
    ∧ fmtUrl ⟨103582791464489035⟩ = "http://steamcommunity.com/gid/[g:1:34967627]" := by
  refine ⟨?_, ?_, by decide⟩
  · intro v h
    simp only [fmtUrl, h]
  · intro v h
    cases hA : AccountType.ofSteamId v with
    | Clan => exact absurd hA h
    | Invalid => simp only [fmtUrl, hA]; rfl
    | Individual => simp only [fmtUrl, hA]; rfl
    | Multiseat => simp only [fmtUrl, hA]; rfl
    | GameServer => simp only [fmtUrl, hA]; rfl
    | AnonGameServer => simp only [fmtUrl, hA]; rfl
    | Pending => simp only [fmtUrl, hA]; rfl
    | ContentServer => simp only [fmtUrl, hA]; rfl
    | Chat c => simp only [fmtUrl, hA]; rfl
    | ConsoleUser => simp only [fmtUrl, hA]; rfl
    | AnonUser => simp only [fmtUrl, hA]; rfl

/-- Closed instance of `c9_url_format`. -/
theorem c9_url_format_witness :
    fmtUrl ⟨103582791464489035⟩ = GROUP_URL ++ fmtSteamId3 ⟨103582791464489035⟩
    ∧ fmtUrl ⟨76561197990953833⟩ = PROFILE_URL ++ fmtSteamId64 ⟨76561197990953833⟩ :=
  ⟨c9_url_format.1 ⟨103582791464489035⟩ (by decide),
   c9_url_format.2.1 ⟨76561197990953833⟩ (by decide)⟩

end steamid
